import Mathlib

/-!
Verification of the agent0-ts registry-broker core against its design notes.

The definitions below are a shallow embedding of the TypeScript sources:
  - src/adapters/registry-broker.ts      (search adapter, chat adapter, retry)
  - src/adapters/registry-broker-utils.ts (result mapping, chat-target resolution)
  - src/core/registry-broker.ts          (RegistryBroker: search, vector search, chat)
  - src/core/semantic-search-errors.ts    (RateLimitError carries HTTP status 429)

Promises (`Promise<T>` with `throw`) are embedded as `Except Err`; network
calls are oracle parameters (functions supplied by the caller of the model);
call sequencing/the number of backend requests is made observable by
returning an explicit trace next to the result.
-/

namespace Agent0

/-- Observable fields of a raised error, as read by the TypeScript code:
`status` (HttpErrorLike.status), the error `name`/`message`, and the
`retryAfter` hint carried by `SemanticSearchError` subclasses. -/
structure Err where
  status : Option Nat := none
  name : String := "Error"
  message : String := ""
  retryAfter : Option Nat := none
deriving Repr, DecidableEq

/-- Build a plain `new Error(message)`. -/
def mkError (message : String) : Err := { message := message }

/-- JavaScript `String.prototype.trim`: strip leading and trailing
whitespace.  (Defined over the character list so that it is fully
computable by the kernel.) -/
def jsTrim (s : String) : String :=
  String.mk (List.rdropWhile Char.isWhitespace
    (s.data.dropWhile Char.isWhitespace))

/-- `isRetryableBrokerError` from src/adapters/registry-broker.ts:
an error is retryable exactly when its HTTP status is 502, 503 or 504. -/
def isRetryableBrokerError (e : Err) : Bool :=
  e.status = some 502 || e.status = some 503 || e.status = some 504

/-- `maxAttempts` constant inside `withRetry`. -/
def maxAttempts : Nat := 3

/-- The loop body of `withRetry` (src/adapters/registry-broker.ts).  The thunk
`fn` is indexed by the attempt number (1-based).  Returns the final outcome,
the number of invocations of the thunk, and the list of delays (in ms) slept
between attempts; the delay before retry `attempt+1` is `450 * attempt`.
`fuel` ensures structural termination; it never runs out because the loop
stops at `attempt = maxAttempts`. -/
def withRetryGo {α : Type} (fn : Nat → Except Err α) (attempt : Nat) :
    Nat → Except Err α × Nat × List Nat
  | 0 => (.error (mkError "Unreachable retry state"), 0, [])
  | fuel + 1 =>
    match fn attempt with
    | .ok v => (.ok v, 1, [])
    | .error e =>
      if !isRetryableBrokerError e || attempt = maxAttempts then
        (.error e, 1, [])
      else
        let rest := withRetryGo fn (attempt + 1) fuel
        (rest.1, rest.2.1 + 1, 450 * attempt :: rest.2.2)

/-- `withRetry` from src/adapters/registry-broker.ts: up to `maxAttempts = 3`
attempts, retrying only errors accepted by `isRetryableBrokerError`, sleeping
`450 * attempt` ms between attempts, and otherwise propagating the error
object unchanged. -/
def withRetry {α : Type} (fn : Nat → Except Err α) : Except Err α × Nat × List Nat :=
  withRetryGo fn 1 maxAttempts

/-- The `RateLimitError` of src/core/semantic-search-errors.ts: its
constructor fixes `status` to 429 and may carry a `retryAfter` hint. -/
def RateLimitError (retryAfter : Option Nat) : Err :=
  { status := some 429, name := "RateLimitError",
    message := "Rate limit exceeded. Please try again later.",
    retryAfter := retryAfter }

/-- JavaScript string truthiness of an optional string: `undefined` and the
empty string are falsy. -/
def strTruthy (o : Option String) : Bool :=
  o.getD "" ≠ ""

/-- The two session modes of a conversation handle. -/
inductive Mode where
  | encrypted
  | plaintext
deriving Repr, DecidableEq

/-- The value produced by `resolveChatTarget`: exactly one of `uaid` or
`agentUrl`. -/
inductive ChatTarget where
  | uaid (u : String)
  | agentUrl (u : String)
deriving Repr, DecidableEq

/-- `resolveChatTarget` from src/adapters/registry-broker-utils.ts: prefer a
trimmed non-empty `uaid`, else a trimmed non-empty `agentUrl`, else throw. -/
def resolveChatTarget (uaid agentUrl : Option String) : Except Err ChatTarget :=
  let trimmedUaid := uaid.map jsTrim
  if strTruthy trimmedUaid then
    .ok (.uaid (trimmedUaid.getD ""))
  else
    let trimmedUrl := agentUrl.map jsTrim
    if strTruthy trimmedUrl then
      .ok (.agentUrl (trimmedUrl.getD ""))
    else
      .error (mkError "Either uaid or agentUrl is required for chat")

/-! ### JSON payloads and `parseBrokerSearchResult` -/

/-- The `JsonValue` type of the broker client: null, booleans, numbers,
strings, arrays and objects (objects as association lists, duplicate keys
resolved JSON-style by the last binding). -/
inductive Json where
  | null
  | bool (b : Bool)
  | num (n : Int)
  | str (s : String)
  | arr (elements : List Json)
  | obj (fields : List (String × Json))

/-- JSON member access `value.key`: the last binding for `key`, if any. -/
def jsonField (fields : List (String × Json)) (key : String) : Option Json :=
  (fields.reverse.find? (fun p => p.1 = key)).map (fun p => p.2)

/-- `isJsonRecord` from src/adapters/registry-broker.ts: a value of type
object that is neither null nor an array. -/
def isJsonRecord : Json → Bool
  | .obj _ => true
  | _ => false

/-- `typeof v === 'string' ? v : undefined` on an optional JSON member. -/
def jsonAsString : Option Json → Option String
  | some (.str s) => some s
  | _ => none

/-- A search hit as the adapter stores it (`BrokerSearchHit`).
`uaid`, `originalId`, `registry`, `name` are `string | undefined`;
`description` is `string | null` (here `none` plays null). -/
structure BrokerSearchHit where
  id : String
  uaid : Option String := none
  originalId : Option String := none
  registry : Option String := none
  name : Option String := none
  description : Option String := none
deriving Repr, DecidableEq

/-- `BrokerSearchResult`: the parsed payload of a `/search` call. -/
structure BrokerSearchResult where
  hits : List BrokerSearchHit
  total : Option Int := none
deriving Repr, DecidableEq

/-- The per-entry body of the `hitsValue.forEach` loop in
`parseBrokerSearchResult`: an object entry with a non-empty string `id`
yields a `BrokerSearchHit`, anything else yields nothing. -/
def parseBrokerHit : Json → Option BrokerSearchHit
  | .obj hf =>
    let id := match jsonField hf "id" with
      | some (.str s) => s
      | _ => ""
    if id = "" then none
    else some { id := id,
                uaid := jsonAsString (jsonField hf "uaid"),
                originalId := jsonAsString (jsonField hf "originalId"),
                registry := jsonAsString (jsonField hf "registry"),
                name := jsonAsString (jsonField hf "name"),
                description := jsonAsString (jsonField hf "description") }
  | _ => none

/-- `parseBrokerSearchResult` from src/adapters/registry-broker.ts.  Throws on
a non-object payload.  The `hits` member is kept only when it is an array
whose entries are all objects (otherwise the whole list is replaced by `[]`),
and each entry without a non-empty string `id` is skipped. -/
def parseBrokerSearchResult (value : Json) : Except Err BrokerSearchResult :=
  match value with
  | .obj fields =>
    let hitsValue : List Json :=
      match jsonField fields "hits" with
      | some (.arr xs) => if xs.all isJsonRecord then xs else []
      | _ => []
    let total := match jsonField fields "total" with
      | some (.num n) => some n
      | _ => none
    .ok { hits := hitsValue.filterMap parseBrokerHit, total := total }
  | _ => .error (mkError "Registry Broker search returned a non-object payload")

/-- The result parser as the claim words it (a refinement reference, NOT the
code): every entry of the `hits` array that is not an object or lacks a
non-empty string id is dropped individually, keeping the rest. -/
def parseBrokerSearchResultPerEntry (value : Json) : Except Err BrokerSearchResult :=
  match value with
  | .obj fields =>
    let hitsValue : List Json :=
      match jsonField fields "hits" with
      | some (.arr xs) => xs
      | _ => []
    let total := match jsonField fields "total" with
      | some (.num n) => some n
      | _ => none
    .ok { hits := hitsValue.filterMap parseBrokerHit, total := total }
  | _ => .error (mkError "Registry Broker search returned a non-object payload")

/-! ### Search result mapping (registry-broker-utils.ts) -/

/-- Split a character list at every `;` (the segments the regex anchor
`(?:^|;)` can match at). -/
def splitOnSemicolon : List Char → List Char → List (List Char)
  | [], acc => [acc.reverse]
  | c :: rest, acc =>
    if c = ';' then acc.reverse :: splitOnSemicolon rest []
    else splitOnSemicolon rest (c :: acc)

/-- `extractNativeIdFromUaid`: first match of the pattern
`(?:^|;)nativeId=([^;]+)` in `uaid`, i.e. the first `;`-separated segment of
the form `nativeId=<non-empty>`; the capture is trimmed and an all-blank
capture yields no id. -/
def extractNativeIdFromUaid (uaid : String) : Option String :=
  match (splitOnSemicolon uaid.data []).find?
      (fun seg => seg.take 9 = "nativeId=".data && decide (9 < seg.length)) with
  | some seg =>
    let candidate := jsTrim (String.mk (seg.drop 9))
    if candidate.length > 0 then some candidate else none
  | none => none

/-- A hit of the adapter-level `AgentSearchResult`. -/
structure MappedAgentHit where
  id : String
  registry : Option String := none
  name : Option String := none
  description : Option String := none
deriving Repr, DecidableEq

/-- The adapter-level `AgentSearchResult`. -/
structure AgentSearchResult where
  hits : List MappedAgentHit
  total : Option Int := none
deriving Repr, DecidableEq

/-- The id chosen by `mapSearchResult` for one hit: `originalId` when it is a
string, else the native id embedded in a trimmed non-empty `uaid`, else the
raw `id`. -/
def mapSearchHitId (hit : BrokerSearchHit) : String :=
  match hit.originalId with
  | some o => o
  | none =>
    let uaid : Option String :=
      match hit.uaid with
      | some u => if (jsTrim u).length > 0 then some (jsTrim u) else none
      | none => none
    match uaid.bind extractNativeIdFromUaid with
    | some nid => nid
    | none => hit.id

/-- `mapSearchResult` from src/adapters/registry-broker-utils.ts. -/
def mapSearchResult (result : BrokerSearchResult) : AgentSearchResult :=
  { hits := result.hits.map (fun hit =>
      { id := mapSearchHitId hit,
        registry := hit.registry,
        name := hit.name,
        description := hit.description }),
    total := result.total }

/-! ### The search adapter (`HashgraphRegistryBrokerSearchAdapter.search`) -/

def ERC8004_DEFAULT_ADAPTER : String := "erc8004-adapter"

def ERC8004_DEFAULT_REGISTRY : String := "erc-8004"

/-- The `SearchParams` sent to the broker `/search` endpoint (fields the
adapter populates). -/
structure SearchParams where
  q : Option String := none
  limit : Option Nat := none
  sortBy : Option String := none
  registry : Option String := none
  registries : Option (List String) := none
  minTrust : Option Nat := none
  protocols : Option (List String) := none
  adapters : Option (List String) := none
deriving Repr, DecidableEq

/-- `AgentSearchOptions` accepted by the search adapter. -/
structure AgentSearchOptions where
  query : Option String := none
  limit : Option Nat := none
  sortBy : Option String := none
  registry : Option String := none
  registries : Option (List String) := none
  minTrust : Option Nat := none
  protocols : Option (List String) := none
  adapters : Option (List String) := none
deriving Repr, DecidableEq

/-- `options.registry ?? options.registries?.[0] ?? ERC8004_DEFAULT_REGISTRY`
from the first lines of `search`. -/
def resolvedRegistry (options : AgentSearchOptions) : String :=
  options.registry.getD ((options.registries.bind List.head?).getD ERC8004_DEFAULT_REGISTRY)

/-- `searchParamsBase` built by `search` before adapter-scope dispatch. -/
def searchParamsBase (options : AgentSearchOptions) : SearchParams :=
  { q := options.query,
    limit := some (options.limit.getD 25),
    sortBy := some (options.sortBy.getD "most-recent"),
    registry := some (resolvedRegistry options),
    registries := options.registries,
    minTrust := options.minTrust,
    protocols := options.protocols }

/-- `HashgraphRegistryBrokerSearchAdapter.search`
(src/adapters/registry-broker.ts).  The private `searchBroker` method (one
retried `/search` request plus `parseBrokerSearchResult`) is the oracle
parameter; next to the result we return the list of `SearchParams` of the
backend searches issued, in order. -/
def HashgraphRegistryBrokerSearchAdapter.search (options : AgentSearchOptions)
    (searchBroker : SearchParams → BrokerSearchResult) :
    AgentSearchResult × List SearchParams :=
  let base := searchParamsBase options
  match options.adapters with
  | some ads =>
    let p := { base with adapters := some ads }
    (mapSearchResult (searchBroker p), [p])
  | none =>
    if resolvedRegistry options ≠ ERC8004_DEFAULT_REGISTRY then
      (mapSearchResult (searchBroker base), [base])
    else
      let p1 := { base with adapters := some [ERC8004_DEFAULT_ADAPTER] }
      let r1 := searchBroker p1
      if r1.hits.length ≠ 0 then
        (mapSearchResult r1, [p1])
      else
        (mapSearchResult (searchBroker base), [p1, base])

/-! ### Core `RegistryBroker` (src/core/registry-broker.ts) -/

/-- The fields of an `AgentSearchHit` the core reads (`id`, `uaid`; both are
read through `??` chains, so both are kept optional). -/
structure AgentHit where
  id : Option String := none
  uaid : Option String := none
deriving Repr, DecidableEq

/-- `SearchResult` of the broker client (`hits` read as `result.hits ?? []`). -/
structure SearchResult where
  hits : Option (List AgentHit) := none
  total : Option Int := none
deriving Repr, DecidableEq

/-- The `filter` member of a `VectorSearchRequest` as the core populates it. -/
structure VectorSearchFilter where
  registry : Option String := none
  protocols : Option (List String) := none
deriving Repr, DecidableEq

/-- `VectorSearchRequest` sent to `client.vectorSearch`. -/
structure VectorSearchRequest where
  query : String
  limit : Option Nat := none
  offset : Option Nat := none
  filter : Option VectorSearchFilter := none
deriving Repr, DecidableEq

/-- One hit of a `VectorSearchResponse`; `highlights` entries are opaque
key/value pairs here. -/
structure VectorHit where
  agent : Option AgentHit := none
  score : Int := 0
  uaid : Option String := none
  highlights : List (String × String) := []
deriving Repr, DecidableEq

/-- `VectorSearchResponse` of the broker client. -/
structure VectorSearchResponse where
  hits : Option (List VectorHit) := none
  total : Option Int := none
  took : Option Int := none
deriving Repr, DecidableEq

/-- `SendMessageResponse` fields the core surfaces. -/
structure SendMessageResponse where
  message : Option String := none
  content : Option String := none
deriving Repr, DecidableEq

/-- `CreateSessionResponse` (its `sessionId` is read through `??`/`?.`). -/
structure CreateSessionResponse where
  sessionId : Option String := none
deriving Repr, DecidableEq

/-- A `ChatConversationHandle` returned by `client.chat.start`: its mode, its
session id, and the outcome of the one `handle.send` call the core makes. -/
structure ChatStartHandle where
  sessionId : String
  mode : Mode
  sendResult : Except Err SendMessageResponse

/-- Oracle model of the `RegistryBrokerClient`: the outcome of each network
call the core can make during one operation. -/
structure RegistryBrokerClientModel where
  search : SearchParams → Except Err SearchResult
  vectorSearch : VectorSearchRequest → Except Err VectorSearchResponse
  chatStart : Except Err ChatStartHandle
  createSession : Except Err CreateSessionResponse
  sendMessage : Except Err SendMessageResponse

/-- The network calls `RegistryBroker.chat` can issue, in order. -/
inductive ChatCall where
  | start
  | sendEncrypted
  | createSession
  | sendMessage
deriving Repr, DecidableEq

/-- `Erc8004SearchOptions`. -/
structure Erc8004SearchOptions where
  query : Option String := none
  limit : Option Nat := none
  sortBy : Option String := none
  registry : Option String := none
  adapters : Option (List String) := none
  minTrust : Option Nat := none
  protocols : Option (List String) := none
deriving Repr, DecidableEq

/-- `RegistryBroker.searchErc8004Agents`: builds `SearchParams`, defaulting
`adapters` to `[ERC8004_DEFAULT_ADAPTER]` only when no explicit adapter list
is given and the registry is the default registry, then issues one search. -/
def searchErc8004Agents (client : RegistryBrokerClientModel)
    (options : Erc8004SearchOptions) : Except Err SearchResult :=
  let registry := options.registry.getD ERC8004_DEFAULT_REGISTRY
  let base : SearchParams :=
    { q := options.query,
      limit := some (options.limit.getD 25),
      sortBy := some (options.sortBy.getD "most-recent"),
      registry := some registry,
      minTrust := options.minTrust,
      protocols := options.protocols }
  let params : SearchParams :=
    match options.adapters with
    | some ads => { base with adapters := some ads }
    | none =>
      if registry = ERC8004_DEFAULT_REGISTRY then
        { base with adapters := some [ERC8004_DEFAULT_ADAPTER] }
      else base
  client.search params

/-- `RegistryBroker.vectorSearch`: delegate to the client and re-emit every
hit with `uaid := hit.uaid ?? hit.agent?.uaid ?? hit.agent?.id ?? null`. -/
def RegistryBroker.vectorSearch (client : RegistryBrokerClientModel)
    (request : VectorSearchRequest) : Except Err VectorSearchResponse :=
  match client.vectorSearch request with
  | .error e => .error e
  | .ok result =>
    let hits := result.hits.getD []
    .ok { result with hits := some (hits.map (fun hit =>
      { hit with uaid :=
          hit.uaid.orElse (fun _ =>
            (hit.agent.bind AgentHit.uaid).orElse (fun _ =>
              hit.agent.bind AgentHit.id)) })) }

/-- The options of `RegistryBroker.vectorSearchErc8004`. -/
structure Erc8004VectorSearchOptions where
  limit : Option Nat := none
  offset : Option Nat := none
  adapters : Option (List String) := none
  protocols : Option (List String) := none
  registry : Option String := none
deriving Repr, DecidableEq

/-- The `VectorSearchRequest` built at the top of
`RegistryBroker.vectorSearchErc8004`: the filter defaults its registry to the
default registry and its protocols to `["a2a"]`. -/
def vectorRequestErc8004 (query : String)
    (options : Option Erc8004VectorSearchOptions) : VectorSearchRequest :=
  { query := query,
    limit := options.bind Erc8004VectorSearchOptions.limit,
    offset := options.bind Erc8004VectorSearchOptions.offset,
    filter := some
      { registry := some ((options.bind Erc8004VectorSearchOptions.registry).getD
          ERC8004_DEFAULT_REGISTRY),
        protocols := some ((options.bind Erc8004VectorSearchOptions.protocols).getD
          ["a2a"]) } }

/-- The options of the fallback keyword search inside
`vectorSearchErc8004`: same query, the request filter's registry and
protocols, and the request's limit. -/
def vectorFallbackOptions (query : String)
    (options : Option Erc8004VectorSearchOptions) : Erc8004SearchOptions :=
  { query := some query,
    registry := (vectorRequestErc8004 query options).filter.bind
      VectorSearchFilter.registry,
    protocols := (vectorRequestErc8004 query options).filter.bind
      VectorSearchFilter.protocols,
    limit := (vectorRequestErc8004 query options).limit }

/-- `RegistryBroker.vectorSearchErc8004`: try the vector search; on any error
fall back to `searchErc8004Agents` with the same query, registry, protocols
and limit, wrapping each keyword hit with score 0.  The second component
records the options of the fallback keyword search, when one was issued. -/
def RegistryBroker.vectorSearchErc8004 (client : RegistryBrokerClientModel)
    (query : String) (options : Option Erc8004VectorSearchOptions) :
    Except Err VectorSearchResponse × Option Erc8004SearchOptions :=
  match RegistryBroker.vectorSearch client (vectorRequestErc8004 query options) with
  | .ok r => (.ok r, none)
  | .error _ =>
    match searchErc8004Agents client (vectorFallbackOptions query options) with
    | .error e => (.error e, some (vectorFallbackOptions query options))
    | .ok fallback =>
      let fallbackHits := fallback.hits.getD []
      (.ok { hits := some (fallbackHits.map (fun hit =>
               { agent := some hit,
                 score := 0,
                 uaid := hit.uaid.orElse (fun _ => hit.id),
                 highlights := [] })),
             total := fallback.total.orElse (fun _ => some (fallbackHits.length : Int)),
             took := some 0 },
       some (vectorFallbackOptions query options))

/-- `RegistryBroker.startErc8004Session`: validate the uaid, then one
`createSession` call with `encryptionRequested: false`. -/
def startErc8004Session (client : RegistryBrokerClientModel) (uaid : String) :
    Except Err CreateSessionResponse × List ChatCall :=
  if (jsTrim uaid).length = 0 then
    (.error (mkError "uaid is required to start an ERC-8004 session"), [])
  else
    (client.createSession, [.createSession])

/-- `RegistryBroker.sendErc8004Message`: validate sessionId and message, then
one `sendMessage` call. -/
def sendErc8004Message (client : RegistryBrokerClientModel)
    (sessionId message : String) : Except Err SendMessageResponse × List ChatCall :=
  if (jsTrim sessionId).length = 0 then
    (.error (mkError "sessionId is required for ERC-8004 messages"), [])
  else if (jsTrim message).length = 0 then
    (.error (mkError "message is required for ERC-8004 messages"), [])
  else
    (client.sendMessage, [.sendMessage])

/-- The tri-state encryption preference; the code reads
`options.encryption?.preference ?? 'preferred'`, so an absent preference is
modelled as `none`. -/
inductive EncryptionPreference where
  | preferred
  | required
  | disabled
deriving Repr, DecidableEq

/-- `Erc8004ChatOptions` (the fields `chat` branches on). -/
structure Erc8004ChatOptions where
  uaid : String
  message : String
  encryption : Option EncryptionPreference := none
deriving Repr, DecidableEq

/-- `Erc8004ChatResult`. -/
structure Erc8004ChatResult where
  sessionId : String
  response : SendMessageResponse
  mode : Mode
deriving Repr, DecidableEq

/-- The plaintext tail of `RegistryBroker.chat` (the code after the
encrypted `try`/`catch`): create a plaintext session, read
`session.sessionId ?? ''`, send the message, return mode `plaintext`. -/
def chatPlaintextPhase (client : RegistryBrokerClientModel)
    (uaid message : String) (trace : List ChatCall) :
    Except Err Erc8004ChatResult × List ChatCall :=
  match startErc8004Session client uaid with
  | (.error e, t) => (.error e, trace ++ t)
  | (.ok session, t) =>
    let sessionId := session.sessionId.getD ""
    match sendErc8004Message client sessionId message with
    | (.error e, t2) => (.error e, trace ++ t ++ t2)
    | (.ok response, t2) =>
      (.ok { sessionId := sessionId, response := response, mode := .plaintext },
       trace ++ t ++ t2)

/-- `RegistryBroker.chat` (src/core/registry-broker.ts): validate the uaid;
unless encryption is disabled, try `chat.start` plus one `handle.send`; on
error rethrow when the preference is `required`, otherwise fall through to
the plaintext phase; when encryption is disabled go to the plaintext phase
directly.  Returns the outcome and the trace of client calls. -/
def RegistryBroker.chat (client : RegistryBrokerClientModel)
    (options : Erc8004ChatOptions) : Except Err Erc8004ChatResult × List ChatCall :=
  let uaid := jsTrim options.uaid
  if uaid = "" then
    (.error (mkError "uaid is required for ERC-8004 chat"), [])
  else
    let preference := options.encryption.getD .preferred
    if preference = .disabled then
      chatPlaintextPhase client uaid options.message []
    else
      match client.chatStart with
      | .error e =>
        if preference = .required then (.error e, [.start])
        else chatPlaintextPhase client uaid options.message [.start]
      | .ok handle =>
        match handle.sendResult with
        | .error e =>
          if preference = .required then (.error e, [.start, .sendEncrypted])
          else chatPlaintextPhase client uaid options.message [.start, .sendEncrypted]
        | .ok response =>
          (.ok { sessionId := handle.sessionId, response := response, mode := handle.mode },
           [.start, .sendEncrypted])

/-! ### The chat adapter (`HashgraphRegistryBrokerChatAdapter`) -/

/-- The network calls the chat adapter can issue, in order.  A
`searchRequest` records the adapter scope of the `/search` request. -/
inductive AdapterCall where
  | searchRequest (adapters : Option (List String))
  | chatStart
  | createSession
deriving Repr, DecidableEq

/-- The `agent` member of an `AgentChatOpenConversationRequest`. -/
structure AgentRef where
  agentId : Option String := none
  a2aEndpoint : Option String := none
  mcpEndpoint : Option String := none
deriving Repr, DecidableEq

/-- The fields of `AgentChatOpenConversationRequest` that `message` branches
on (`encryption?.preference ?? 'preferred'` is collapsed into one option). -/
structure OpenConversationRequest where
  sessionId : Option String := none
  encryption : Option EncryptionPreference := none
  agent : AgentRef := {}
deriving Repr, DecidableEq

/-- An `AgentChatConversationHandle` (its `send` closure is not part of the
open-conversation result studied here). -/
structure AgentChatConversationHandle where
  sessionId : String
  mode : Mode
deriving Repr, DecidableEq

/-- `createPlaintextHandle`: a handle for `sessionId` with mode plaintext. -/
def createPlaintextHandle (sessionId : String) : AgentChatConversationHandle :=
  { sessionId := sessionId, mode := .plaintext }

/-- `mapConversationHandle` from registry-broker-utils.ts: keep the session
id; the mode is `encrypted` exactly when the broker handle says so. -/
def mapConversationHandle (handle : ChatStartHandle) : AgentChatConversationHandle :=
  { sessionId := handle.sessionId,
    mode := if handle.mode = Mode.encrypted then .encrypted else .plaintext }

/-- Oracle model of the broker client as the chat adapter uses it.  Each
network call is attempt-indexed because the adapter wraps it in `withRetry`. -/
structure ChatAdapterClientModel where
  searchJson : Option (List String) → Nat → Except Err Json
  chatStart : Nat → Except Err ChatStartHandle
  createSession : Nat → Except Err CreateSessionResponse

/-- The process-lifetime `uaidByAgentId` map, as an association list (newest
binding first). -/
abbrev UaidCache : Type := List (String × String)

/-- `Map.get`. -/
def cacheGet (cache : UaidCache) (k : String) : Option String :=
  (List.find? (fun p => p.1 = k) cache).map (fun p => p.2)

/-- `Map.set`. -/
def cacheSet (cache : UaidCache) (k v : String) : UaidCache :=
  (k, v) :: cache

/-- `hits[0]?.uaid?.trim()` on a parsed search result (`string | undefined`,
where an all-blank uaid yields `some ""`). -/
def firstHitUaidTrim (r : BrokerSearchResult) : Option String :=
  (r.hits.head?.bind BrokerSearchHit.uaid).map jsTrim

/-- The local `search` closure of `resolveChatTargetFromAgent`: one retried
`/search` request with the given adapter scope, parsed by
`parseBrokerSearchResult`. -/
def adapterSearchBroker (client : ChatAdapterClientModel)
    (adapters : Option (List String)) : Except Err BrokerSearchResult :=
  match (withRetry (client.searchJson adapters)).1 with
  | .error e => .error e
  | .ok raw => parseBrokerSearchResult raw

/-- The value `resolveChatTargetFromAgent` resolves to. -/
structure ResolvedTarget where
  uaid : Option String := none
  agentUrl : Option String := none
deriving Repr, DecidableEq

/-- `HashgraphRegistryBrokerChatAdapter.resolveChatTargetFromAgent`
(src/adapters/registry-broker.ts): for a trimmed non-empty agentId, serve the
cached uaid without any request; on a cache miss search with the default
adapter, then (when that yields no truthy uaid) once more with no adapter
scope; `uaid := uaidFromAdapter ?? uaidFromFallback ?? ''`; an empty uaid is
an error, a non-empty one is cached and returned.  Without an agentId the
agent's `a2aEndpoint?.trim() ?? mcpEndpoint?.trim() ?? ''` must be non-empty.
Returns outcome, updated cache and the request trace. -/
def resolveChatTargetFromAgent (client : ChatAdapterClientModel)
    (cache : UaidCache) (agent : AgentRef) :
    Except Err ResolvedTarget × UaidCache × List AdapterCall :=
  let agentId := (agent.agentId.map jsTrim).getD ""
  if agentId ≠ "" then
    match cacheGet cache agentId with
    | some cached => (.ok { uaid := some cached }, cache, [])
    | none =>
      match adapterSearchBroker client (some [ERC8004_DEFAULT_ADAPTER]) with
      | .error e =>
        (.error e, cache, [.searchRequest (some [ERC8004_DEFAULT_ADAPTER])])
      | .ok resultWithAdapter =>
        let uaidFromAdapter : Option String := firstHitUaidTrim resultWithAdapter
        if strTruthy uaidFromAdapter then
          let uaid := uaidFromAdapter.getD ""
          (.ok { uaid := some uaid }, cacheSet cache agentId uaid,
           [.searchRequest (some [ERC8004_DEFAULT_ADAPTER])])
        else
          match adapterSearchBroker client none with
          | .error e =>
            (.error e, cache,
             [.searchRequest (some [ERC8004_DEFAULT_ADAPTER]), .searchRequest none])
          | .ok resultFallback =>
            let uaidFromFallback : Option String := firstHitUaidTrim resultFallback
            let uaid :=
              match uaidFromAdapter with
              | some s => s
              | none => uaidFromFallback.getD ""
            if uaid = "" then
              (.error (mkError "Unable to resolve broker UAID for agentId"), cache,
               [.searchRequest (some [ERC8004_DEFAULT_ADAPTER]), .searchRequest none])
            else
              (.ok { uaid := some uaid }, cacheSet cache agentId uaid,
               [.searchRequest (some [ERC8004_DEFAULT_ADAPTER]), .searchRequest none])
  else
    let agentUrl :=
      match agent.a2aEndpoint.map jsTrim with
      | some s => s
      | none => (agent.mcpEndpoint.map jsTrim).getD ""
    if agentUrl ≠ "" then
      (.ok { agentUrl := some agentUrl }, cache, [])
    else
      (.error (mkError "Agent does not have an agentId or a chat-capable endpoint"),
       cache, [])

/-- The plaintext tail of the adapter's `message`: one retried
`createSession` with `encryptionRequested: false`; its
`sessionId?.trim() ?? ''` must be non-empty, and the result is a plaintext
handle for it. -/
def adapterPlaintextTail (client : ChatAdapterClientModel) (cache : UaidCache)
    (trace : List AdapterCall) :
    Except Err AgentChatConversationHandle × UaidCache × List AdapterCall :=
  match (withRetry client.createSession).1 with
  | .error e => (.error e, cache, trace ++ [.createSession])
  | .ok response =>
    let createdSessionId := (response.sessionId.map jsTrim).getD ""
    if createdSessionId = "" then
      (.error (mkError "Registry Broker createSession did not return a sessionId"),
       cache, trace ++ [.createSession])
    else
      (.ok (createPlaintextHandle createdSessionId), cache, trace ++ [.createSession])

/-- `HashgraphRegistryBrokerChatAdapter.message`
(src/adapters/registry-broker.ts): a trimmed non-empty `sessionId` resumes
without any network call (an error when encryption is required, otherwise a
plaintext handle); otherwise the target is resolved, the encrypted
`chat.start` is tried unless encryption is disabled (errors rethrown when it
is required), and the plaintext tail runs on fallback or disabled
encryption.  Returns outcome, updated uaid cache and the request trace. -/
def HashgraphRegistryBrokerChatAdapter.message (client : ChatAdapterClientModel)
    (cache : UaidCache) (request : OpenConversationRequest) :
    Except Err AgentChatConversationHandle × UaidCache × List AdapterCall :=
  let preference := request.encryption.getD .preferred
  let sessionId := (request.sessionId.map jsTrim).getD ""
  if sessionId ≠ "" then
    if preference = .required then
      (.error (mkError "Encrypted chat cannot be resumed from an existing sessionId; start a new chat session instead."),
       cache, [])
    else
      (.ok (createPlaintextHandle sessionId), cache, [])
  else
    match resolveChatTargetFromAgent client cache request.agent with
    | (.error e, cache2, t) => (.error e, cache2, t)
    | (.ok resolved, cache2, t) =>
      match resolveChatTarget resolved.uaid resolved.agentUrl with
      | .error e => (.error e, cache2, t)
      | .ok _target =>
        if preference ≠ .disabled then
          match (withRetry client.chatStart).1 with
          | .ok handle =>
            (.ok (mapConversationHandle handle), cache2, t ++ [.chatStart])
          | .error e =>
            if preference = .required then
              (.error e, cache2, t ++ [.chatStart])
            else
              adapterPlaintextTail client cache2 (t ++ [.chatStart])
        else
          adapterPlaintextTail client cache2 t

/-- The trimmed uaid of the first hit of one resolved-and-parsed `/search`
call with the given adapter scope (`hits[0]?.uaid?.trim()` on the outcome of
the retried request), when the call succeeds and the hit has a uaid. -/
def brokerFirstHitUaid (client : ChatAdapterClientModel)
    (adapters : Option (List String)) : Option String :=
  match adapterSearchBroker client adapters with
  | .ok r => firstHitUaidTrim r
  | .error _ => none

/-- Concrete chat-adapter client for the C6 artifacts: the `/search` backend
knows agent `agent-1`, encrypted start succeeds with session `sess-enc`. -/
def C6adapterClient : ChatAdapterClientModel :=
  { searchJson := fun _ _ => .ok (Json.obj [("hits",
      Json.arr [Json.obj [("id", Json.str "agent-1"),
                          ("uaid", Json.str "uaid:agent-1")]])]),
    chatStart := fun _ => .ok
      { sessionId := "sess-enc", mode := .encrypted, sendResult := .ok {} },
    createSession := fun _ => .ok { sessionId := some "sess-plain" } }

/-- Concrete broker client for the C8 witness: the vector search is down, the
keyword search returns one hit. -/
def C8coreClient : RegistryBrokerClientModel :=
  { search := fun _ => .ok { hits := some [{ id := some "a1", uaid := some "u1" }] },
    vectorSearch := fun _ => .error (mkError "vector down"),
    chatStart := .error (mkError "unused"),
    createSession := .ok {},
    sendMessage := .ok {} }

/-- Concrete chat-adapter client for the C9 witness (never actually called on
a cache hit). -/
def C9adapterClient : ChatAdapterClientModel :=
  { searchJson := fun _ _ => .ok (Json.obj [("hits", Json.arr [])]),
    chatStart := fun _ => .error (mkError "unused"),
    createSession := fun _ => .error (mkError "unused") }

/-- Concrete broker client used by witnesses: encrypted start fails, the
plaintext path succeeds with session id `s1`. -/
def C1coreClient : RegistryBrokerClientModel :=
  { search := fun _ => .ok {},
    vectorSearch := fun _ => .ok {},
    chatStart := .error (mkError "enc failed"),
    createSession := .ok { sessionId := some "s1" },
    sendMessage := .ok {} }

/-- Same client shape for the C5 witness (kept separate so each claim's
artifacts are independent). -/
def C5coreClient : RegistryBrokerClientModel :=
  { search := fun _ => .ok {},
    vectorSearch := fun _ => .ok {},
    chatStart := .error (mkError "enc failed"),
    createSession := .ok { sessionId := some "s1" },
    sendMessage := .ok {} }

/-! ## Theorems -/

/-- C7: chat-target resolution returns the trimmed `uaid` whenever `uaid` is
present and non-empty after trimming, returns the trimmed `agentUrl` when
`uaid` is absent or trims to empty but `agentUrl` is non-empty after
trimming, and fails with an error when both are absent or trim to empty. -/
theorem C7_chat_target_resolution (uaid agentUrl : Option String) :
    (∀ u, uaid = some u → jsTrim u ≠ "" →
      resolveChatTarget uaid agentUrl = .ok (ChatTarget.uaid (jsTrim u))) ∧
    (∀ a, (uaid = none ∨ ∃ u, uaid = some u ∧ jsTrim u = "") →
      agentUrl = some a → jsTrim a ≠ "" →
      resolveChatTarget uaid agentUrl = .ok (ChatTarget.agentUrl (jsTrim a))) ∧
    ((uaid = none ∨ ∃ u, uaid = some u ∧ jsTrim u = "") →
     (agentUrl = none ∨ ∃ a, agentUrl = some a ∧ jsTrim a = "") →
      resolveChatTarget uaid agentUrl =
        .error (mkError "Either uaid or agentUrl is required for chat")) := by
  refine ⟨?_, ?_, ?_⟩
  · rintro u rfl hu
    simp [resolveChatTarget, strTruthy, hu]
  · rintro a hu rfl ha
    rcases hu with rfl | ⟨u, rfl, hu⟩
    · simp [resolveChatTarget, strTruthy, ha]
    · simp [resolveChatTarget, strTruthy, hu, ha]
  · rintro hu ha
    rcases hu with rfl | ⟨u, rfl, hu⟩ <;>
      rcases ha with rfl | ⟨a, rfl, ha⟩
    · simp [resolveChatTarget, strTruthy]
    · simp [resolveChatTarget, strTruthy, ha]
    · simp [resolveChatTarget, strTruthy, hu]
    · simp [resolveChatTarget, strTruthy, hu, ha]

/-- C7 witness: at `uaid = some " u1 "` and `agentUrl = some "http://x"`, the
uaid wins. -/
theorem C7_chat_target_resolution_witness :
    resolveChatTarget (some " u1 ") (some "http://x") = .ok (ChatTarget.uaid "u1") := by
  have h := (C7_chat_target_resolution (some " u1 ") (some "http://x")).1 " u1 " rfl
    (by decide)
  simpa using h

/-- C3: a thunk failing with the same retryable (502/503/504) error at every
attempt is invoked exactly `maxAttempts = 3` times with linear delays
`450 * 1` and `450 * 2` ms between attempts, and the original error object is
propagated unchanged; a thunk whose first error is not retryable is invoked
exactly once and that error is propagated unchanged. -/
theorem C3_retry_executor_policy {α : Type} (fn : Nat → Except Err α) (e : Err) :
    ((∀ n, fn n = .error e) → isRetryableBrokerError e = true →
      withRetry fn = (.error e, maxAttempts, [450, 900])) ∧
    (fn 1 = .error e → isRetryableBrokerError e = false →
      withRetry fn = (.error e, 1, [])) := by
  constructor
  · intro hfn hr
    simp [withRetry, withRetryGo, hfn, hr, maxAttempts]
  · intro h1 hr
    simp [withRetry, withRetryGo, h1, hr, maxAttempts]

/-- C3 witness: a thunk always failing with a 503 error runs three times with
delays 450 and 900 ms; a thunk failing with a plain error runs once. -/
theorem C3_retry_executor_policy_witness :
    withRetry (fun _ => (.error { status := some 503 } : Except Err Nat)) =
      (.error { status := some 503 }, maxAttempts, [450, 900]) ∧
    withRetry (fun _ => (.error (mkError "boom") : Except Err Nat)) =
      (.error (mkError "boom"), 1, []) :=
  ⟨(C3_retry_executor_policy (fun _ => .error { status := some 503 })
      { status := some 503 }).1 (fun _ => rfl) (by decide),
   (C3_retry_executor_policy (fun _ => .error (mkError "boom"))
      (mkError "boom")).2 rfl (by decide)⟩

/-- C4 counterexample: a `RateLimitError` (status 429, retry-after hint 7) is
classified as NOT retryable by `isRetryableBrokerError`, and a thunk that
always raises it is invoked exactly once with no backoff delay — the claim
that rate-limit errors are classified transient and retried (with the
retry-after hint honored) is false. -/
theorem C4_rate_limit_counterexample :
    isRetryableBrokerError (RateLimitError (some 7)) = false ∧
    withRetry (fun _ => (.error (RateLimitError (some 7)) : Except Err Nat)) =
      (.error (RateLimitError (some 7)), 1, []) :=
  ⟨rfl, rfl⟩

/-- C4 amended: an error with HTTP status 429 (as every `RateLimitError`
carries) is classified non-retryable by `isRetryableBrokerError`, which
accepts only 502/503/504; the retry executor invokes the thunk once and
propagates the error unchanged, so the retry-after hint is never consulted
and no backoff is applied. -/
theorem C4_rate_limit_terminal {α : Type} (fn : Nat → Except Err α) (e : Err)
    (hstatus : e.status = some 429) (h1 : fn 1 = .error e) :
    isRetryableBrokerError e = false ∧ withRetry fn = (.error e, 1, []) := by
  have hret : isRetryableBrokerError e = false := by
    simp [isRetryableBrokerError, hstatus]
  exact ⟨hret, by simp [withRetry, withRetryGo, h1, hret, maxAttempts]⟩

/-- C4 witness: the amended statement applied to a concrete rate-limit
error. -/
theorem C4_rate_limit_terminal_witness :
    isRetryableBrokerError (RateLimitError none) = false ∧
    withRetry (fun _ => (.error (RateLimitError none) : Except Err Nat)) =
      (.error (RateLimitError none), 1, []) :=
  C4_rate_limit_terminal (fun _ => .error (RateLimitError none))
    (RateLimitError none) rfl rfl

/-- C2: when `adapters` is explicitly given, the search adapter issues
exactly one backend search carrying those adapters; when the resolved
registry is not the default registry and `adapters` is unset, exactly one
backend search with no adapter restriction; when the resolved registry is
the default registry and `adapters` is unset, a first backend search with
the default adapter id, and a second one with no adapter restriction if and
only if the first returned zero hits. -/
theorem C2_search_adapter_scope (options : AgentSearchOptions)
    (searchBroker : SearchParams → BrokerSearchResult) :
    (∀ ads, options.adapters = some ads →
      (HashgraphRegistryBrokerSearchAdapter.search options searchBroker).2 =
        [{ searchParamsBase options with adapters := some ads }]) ∧
    (options.adapters = none → resolvedRegistry options ≠ ERC8004_DEFAULT_REGISTRY →
      (HashgraphRegistryBrokerSearchAdapter.search options searchBroker).2 =
        [searchParamsBase options] ∧ (searchParamsBase options).adapters = none) ∧
    (options.adapters = none → resolvedRegistry options = ERC8004_DEFAULT_REGISTRY →
      ((searchBroker { searchParamsBase options with
            adapters := some [ERC8004_DEFAULT_ADAPTER] }).hits.length ≠ 0 →
        (HashgraphRegistryBrokerSearchAdapter.search options searchBroker).2 =
          [{ searchParamsBase options with adapters := some [ERC8004_DEFAULT_ADAPTER] }]) ∧
      ((searchBroker { searchParamsBase options with
            adapters := some [ERC8004_DEFAULT_ADAPTER] }).hits.length = 0 →
        (HashgraphRegistryBrokerSearchAdapter.search options searchBroker).2 =
          [{ searchParamsBase options with adapters := some [ERC8004_DEFAULT_ADAPTER] },
           searchParamsBase options])) := by
  refine ⟨?_, ?_, ?_⟩
  · rintro ads h
    simp [HashgraphRegistryBrokerSearchAdapter.search, h]
  · intro h hreg
    exact ⟨by simp [HashgraphRegistryBrokerSearchAdapter.search, h, hreg], rfl⟩
  · intro h hreg
    constructor
    · intro hne
      simp [HashgraphRegistryBrokerSearchAdapter.search, h, hreg, hne]
    · intro heq
      simp [HashgraphRegistryBrokerSearchAdapter.search, h, hreg, heq]

/-- C2 witness: explicit adapter scope yields one backend search with that
scope; the default registry with unset scope and an empty first result
yields the two-phase pair of backend searches. -/
theorem C2_search_adapter_scope_witness :
    (HashgraphRegistryBrokerSearchAdapter.search { adapters := some ["a1"] }
        (fun _ => { hits := [] })).2 =
      [{ limit := some 25, sortBy := some "most-recent",
         registry := some "erc-8004", adapters := some ["a1"] }] ∧
    (HashgraphRegistryBrokerSearchAdapter.search {} (fun _ => { hits := [] })).2 =
      [{ limit := some 25, sortBy := some "most-recent",
         registry := some "erc-8004", adapters := some ["erc8004-adapter"] },
       { limit := some 25, sortBy := some "most-recent",
         registry := some "erc-8004" }] := by
  constructor
  · have h := (C2_search_adapter_scope { adapters := some ["a1"] }
      (fun _ => { hits := [] })).1 ["a1"] rfl
    simpa [searchParamsBase, resolvedRegistry, ERC8004_DEFAULT_REGISTRY] using h
  · have h := ((C2_search_adapter_scope {} (fun _ => { hits := [] })).2.2 rfl rfl).2 rfl
    simpa [searchParamsBase, resolvedRegistry, ERC8004_DEFAULT_REGISTRY,
      ERC8004_DEFAULT_ADAPTER] using h

/-- A right-trim of a left-trimmed list is still left-trimmed. -/
theorem dropWhile_rdropWhile_dropWhile {α : Type} (p : α → Bool) (l : List α) :
    List.dropWhile p (List.rdropWhile p (List.dropWhile p l)) =
      List.rdropWhile p (List.dropWhile p l) := by
  rw [List.dropWhile_eq_self_iff]
  intro hl
  have hpre := List.rdropWhile_prefix p (List.dropWhile p l)
  have hlen : 0 < (List.dropWhile p l).length := lt_of_lt_of_le hl hpre.length_le
  have hget := List.dropWhile_get_zero_not p l hlen
  have heq : (List.rdropWhile p (List.dropWhile p l)).get ⟨0, hl⟩ =
      (List.dropWhile p l).get ⟨0, hlen⟩ := by
    simpa [List.get_eq_getElem] using hpre.getElem hl
  rw [heq]
  exact hget

/-- `jsTrim` is idempotent. -/
theorem jsTrim_idem (s : String) : jsTrim (jsTrim s) = jsTrim s := by
  show String.mk _ = String.mk _
  congr 1
  show List.rdropWhile _ (List.dropWhile _
    (List.rdropWhile _ (List.dropWhile _ s.data))) = _
  rw [dropWhile_rdropWhile_dropWhile, List.rdropWhile_idempotent]

/-- A string is empty exactly when its length is zero. -/
theorem string_length_eq_zero_iff (s : String) : s.length = 0 ↔ s = "" := by
  cases s with
  | mk data =>
    simp [String.length, String.ext_iff, List.length_eq_zero]

/-- Any hit produced by `parseBrokerHit` has a non-empty id. -/
theorem parseBrokerHit_id_ne_empty {j : Json} {h : BrokerSearchHit}
    (hp : parseBrokerHit j = some h) : h.id ≠ "" := by
  cases j with
  | obj hf =>
    dsimp [parseBrokerHit] at hp
    split at hp
    · cases hp
    · rename_i hid
      cases hp
      exact hid
  | null => cases hp
  | bool b => cases hp
  | num n => cases hp
  | str s => cases hp
  | arr xs => cases hp

/-- The hit list of a successful parse, as a function of the payload. -/
theorem parseBrokerSearchResult_obj_hits (fields : List (String × Json))
    (r : BrokerSearchResult)
    (h : parseBrokerSearchResult (.obj fields) = .ok r) :
    r.hits = (match jsonField fields "hits" with
      | some (.arr xs) => if xs.all isJsonRecord then xs else []
      | _ => []).filterMap parseBrokerHit := by
  dsimp [parseBrokerSearchResult] at h
  cases h
  rfl

/-- C10 counterexample: for the payload whose `hits` array is
`[{id: "a"}, 42]` the code drops the whole array (the valid object entry
included) and returns no hits, while the claim's per-entry rule would keep
the `{id: "a"}` entry — so "any entry that is not an object … is silently
dropped (a subsequence of the payload's hits)" misdescribes the code. -/
theorem C10_parse_result_counterexample :
    parseBrokerSearchResult
        (Json.obj [("hits", Json.arr [Json.obj [("id", Json.str "a")], Json.num 42])]) =
      .ok { hits := [], total := none } ∧
    parseBrokerSearchResultPerEntry
        (Json.obj [("hits", Json.arr [Json.obj [("id", Json.str "a")], Json.num 42])]) =
      .ok { hits := [{ id := "a" }], total := none } ∧
    ([] : List BrokerSearchHit) ≠ [{ id := "a" }] :=
  ⟨rfl, rfl, by simp⟩

/-- C10 amended: the parser errors exactly on non-object payloads; every
returned hit has a non-empty string id; when every entry of the `hits` array
is an object, entries lacking a non-empty string id are dropped individually
(the per-entry rule); when some entry is not an object the whole hit list is
dropped; in every case the returned hits are a subsequence of the per-entry
conversion of the payload's hits array. -/
theorem C10_parse_result_safety (value : Json) :
    ((∃ e, parseBrokerSearchResult value = .error e) ↔ isJsonRecord value = false) ∧
    (∀ r, parseBrokerSearchResult value = .ok r → ∀ hit ∈ r.hits, hit.id ≠ "") ∧
    (∀ fields xs, value = .obj fields →
      jsonField fields "hits" = some (.arr xs) →
      ∀ r, parseBrokerSearchResult value = .ok r →
        (xs.all isJsonRecord = true → r.hits = xs.filterMap parseBrokerHit) ∧
        (xs.all isJsonRecord = false → r.hits = []) ∧
        List.Sublist r.hits (xs.filterMap parseBrokerHit)) := by
  refine ⟨?_, ?_, ?_⟩
  · cases value <;> simp [parseBrokerSearchResult, isJsonRecord]
  · intro r hr hit hmem
    cases value with
    | obj fields =>
      have hh := parseBrokerSearchResult_obj_hits fields r hr
      rw [hh] at hmem
      obtain ⟨j, _, hpj⟩ := List.mem_filterMap.mp hmem
      exact parseBrokerHit_id_ne_empty hpj
    | null => cases hr
    | bool b => cases hr
    | num n => cases hr
    | str s => cases hr
    | arr xs => cases hr
  · rintro fields xs rfl hfield r hr
    have hh := parseBrokerSearchResult_obj_hits fields r hr
    rw [hfield] at hh
    refine ⟨?_, ?_, ?_⟩
    · intro hall
      simp only [hall] at hh
      simpa using hh
    · intro hfalse
      simp only [hfalse] at hh
      simpa using hh
    · by_cases hall : xs.all isJsonRecord = true
      · have hh2 : r.hits = xs.filterMap parseBrokerHit := by
          simpa [hall] using hh
        rw [hh2]
      · have hfalse : xs.all isJsonRecord = false := by
          simpa using hall
        have hh2 : r.hits = [] := by
          simpa [hfalse] using hh
        rw [hh2]
        exact List.nil_sublist _

/-- C10 witness: the amended statement applied to a well-formed payload with
one valid hit. -/
theorem C10_parse_result_safety_witness :
    ({ id := "a" } : BrokerSearchHit).id ≠ "" ∧
    parseBrokerSearchResult
        (Json.obj [("hits", Json.arr [Json.obj [("id", Json.str "a")]])]) =
      .ok { hits := [{ id := "a" }], total := none } := by
  refine ⟨?_, rfl⟩
  exact (C10_parse_result_safety
      (Json.obj [("hits", Json.arr [Json.obj [("id", Json.str "a")]])])).2.1
    { hits := [{ id := "a" }], total := none } rfl { id := "a" } (by simp)

/-- C1: with encryption preference `required`, an error raised by the
encrypted negotiation (`chat.start` or the first `send` over the encrypted
handle) is propagated unchanged by `RegistryBroker.chat`: the result is that
error, no plaintext session is created (`createSession` is never called) and
no message is sent over a plaintext session; likewise the chat adapter's
`message` propagates a failed retried `chat.start` without calling
`createSession`. -/
theorem C1_required_no_plaintext_fallback :
    (∀ (client : RegistryBrokerClientModel) (options : Erc8004ChatOptions) (e : Err),
      jsTrim options.uaid ≠ "" →
      options.encryption = some .required →
      (client.chatStart = .error e ∨
        ∃ h, client.chatStart = .ok h ∧ h.sendResult = .error e) →
      (RegistryBroker.chat client options).1 = .error e ∧
      ChatCall.createSession ∉ (RegistryBroker.chat client options).2 ∧
      ChatCall.sendMessage ∉ (RegistryBroker.chat client options).2) ∧
    (∀ (aclient : ChatAdapterClientModel) (cache : UaidCache)
        (request : OpenConversationRequest) (e : Err)
        (resolved : ResolvedTarget) (cache2 : UaidCache) (t : List AdapterCall)
        (target : ChatTarget),
      request.encryption = some .required →
      (request.sessionId.map jsTrim).getD "" = "" →
      resolveChatTargetFromAgent aclient cache request.agent = (.ok resolved, cache2, t) →
      resolveChatTarget resolved.uaid resolved.agentUrl = .ok target →
      (withRetry aclient.chatStart).1 = .error e →
      HashgraphRegistryBrokerChatAdapter.message aclient cache request =
        (.error e, cache2, t ++ [.chatStart])) := by
  constructor
  · intro client options e huaid hpref henc
    rcases henc with hstart | ⟨h, hstart, hsend⟩
    · simp [RegistryBroker.chat, huaid, hpref, hstart]
    · simp [RegistryBroker.chat, huaid, hpref, hstart, hsend]
  · intro aclient cache request e resolved cache2 t target hpref hsid hres htarget hstart
    simp [HashgraphRegistryBrokerChatAdapter.message, hpref, hsid, hres, htarget, hstart]

/-- C1 witness: with preference `required` and a failing encrypted start, the
error is propagated and no plaintext session is created. -/
theorem C1_required_no_plaintext_fallback_witness :
    (RegistryBroker.chat C1coreClient
        { uaid := "u1", message := "hi", encryption := some .required }).1 =
      .error (mkError "enc failed") ∧
    ChatCall.createSession ∉ (RegistryBroker.chat C1coreClient
        { uaid := "u1", message := "hi", encryption := some .required }).2 := by
  have h := C1_required_no_plaintext_fallback.1 C1coreClient
    { uaid := "u1", message := "hi", encryption := some .required }
    (mkError "enc failed") (by decide) rfl (Or.inl rfl)
  exact ⟨h.1, h.2.1⟩

/-- C5: with encryption preference `preferred` (also the default when no
preference is given), a failed encrypted negotiation followed by a
successful plaintext session creation (returning session id `sid`) and a
successful message send yields `mode = plaintext` with that `sid`, and no
error is surfaced. -/
theorem C5_preferred_falls_back_to_plaintext
    (client : RegistryBrokerClientModel) (options : Erc8004ChatOptions)
    (e : Err) (sid : String) (resp : SendMessageResponse)
    (huaid : jsTrim options.uaid ≠ "")
    (hpref : options.encryption = none ∨ options.encryption = some .preferred)
    (henc : client.chatStart = .error e ∨
      ∃ h, client.chatStart = .ok h ∧ h.sendResult = .error e)
    (hcreate : client.createSession = .ok { sessionId := some sid })
    (hsid : (jsTrim sid).length ≠ 0)
    (hmsg : (jsTrim options.message).length ≠ 0)
    (hsend : client.sendMessage = .ok resp) :
    (RegistryBroker.chat client options).1 =
      .ok { sessionId := sid, response := resp, mode := .plaintext } := by
  have huaid2 : (jsTrim (jsTrim options.uaid)).length ≠ 0 := by
    rw [jsTrim_idem, Ne, string_length_eq_zero_iff]
    exact huaid
  rcases hpref with hp | hp <;> rcases henc with hstart | ⟨h, hstart, hsend2⟩
  · simp [RegistryBroker.chat, chatPlaintextPhase, startErc8004Session,
      sendErc8004Message, huaid, huaid2, hp, hstart, hcreate, hsid, hmsg, hsend]
  · simp [RegistryBroker.chat, chatPlaintextPhase, startErc8004Session,
      sendErc8004Message, huaid, huaid2, hp, hstart, hsend2, hcreate, hsid, hmsg, hsend]
  · simp [RegistryBroker.chat, chatPlaintextPhase, startErc8004Session,
      sendErc8004Message, huaid, huaid2, hp, hstart, hcreate, hsid, hmsg, hsend]
  · simp [RegistryBroker.chat, chatPlaintextPhase, startErc8004Session,
      sendErc8004Message, huaid, huaid2, hp, hstart, hsend2, hcreate, hsid, hmsg, hsend]

/-- C5 witness: the fallback applied with a concrete failing encrypted start
and a successful plaintext session `s1`. -/
theorem C5_preferred_falls_back_to_plaintext_witness :
    (RegistryBroker.chat C5coreClient { uaid := "u1", message := "hi" }).1 =
      .ok { sessionId := "s1", response := {}, mode := .plaintext } :=
  C5_preferred_falls_back_to_plaintext C5coreClient
    { uaid := "u1", message := "hi" } (mkError "enc failed") "s1" {}
    (by decide) (Or.inl rfl) (Or.inl rfl) rfl (by decide) (by decide) rfl

/-- C6 counterexample: a request whose `sessionId` is the non-empty string
`" "` (which trims to empty) with preference `required` does NOT fail fast:
the adapter resolves the target over the network (one `/search` request) and
starts an encrypted session — so "non-empty existing sessionId" is decided
only after trimming, refuting the claim as literally stated. -/
theorem C6_resume_counterexample :
    HashgraphRegistryBrokerChatAdapter.message C6adapterClient []
        { sessionId := some " ", encryption := some .required,
          agent := { agentId := some "agent-1" } } =
      (.ok { sessionId := "sess-enc", mode := .encrypted },
       [("agent-1", "uaid:agent-1")],
       [.searchRequest (some ["erc8004-adapter"]), .chatStart]) := by
  rfl

/-- C6 amended: for a request whose `sessionId` is non-empty AFTER TRIMMING,
`message` fails immediately with an error when preference is `required`
(performing no network call), and otherwise returns a plaintext handle for
the trimmed sessionId with no network call, no negotiation and no session
creation. -/
theorem C6_resume_plaintext (aclient : ChatAdapterClientModel)
    (cache : UaidCache) (request : OpenConversationRequest) (sid : String)
    (hsid : request.sessionId = some sid) (hne : jsTrim sid ≠ "") :
    (request.encryption = some .required →
      HashgraphRegistryBrokerChatAdapter.message aclient cache request =
        (.error (mkError "Encrypted chat cannot be resumed from an existing sessionId; start a new chat session instead."),
         cache, [])) ∧
    (request.encryption.getD .preferred ≠ .required →
      HashgraphRegistryBrokerChatAdapter.message aclient cache request =
        (.ok { sessionId := jsTrim sid, mode := .plaintext }, cache, [])) := by
  constructor
  · intro hpref
    simp [HashgraphRegistryBrokerChatAdapter.message, hsid, hne, hpref]
  · intro hpref
    simp [HashgraphRegistryBrokerChatAdapter.message, createPlaintextHandle,
      hsid, hne, hpref]

/-- C6 witness: resuming session `" sess-1 "` with the default preference
returns a plaintext handle for `sess-1` without touching the network. -/
theorem C6_resume_plaintext_witness :
    HashgraphRegistryBrokerChatAdapter.message C6adapterClient []
        { sessionId := some " sess-1 " } =
      (.ok { sessionId := "sess-1", mode := .plaintext }, ([] : UaidCache), []) := by
  have h := (C6_resume_plaintext C6adapterClient []
    { sessionId := some " sess-1 " } " sess-1 " rfl (by decide)).2 (by decide)
  rw [show jsTrim " sess-1 " = "sess-1" from by decide] at h
  exact h

/-- C8: when the vector-search call raises any error,
`vectorSearchErc8004` swallows it and issues the fallback keyword search
with the same query, the request filter's registry and protocols, and the
request's limit; if the fallback succeeds, its hits are returned wrapped
with score 0 and no error is surfaced, while an error of the fallback search
itself is propagated (the vector step is the only swallowed one). -/
theorem C8_vector_search_error_swallowed (client : RegistryBrokerClientModel)
    (query : String) (options : Option Erc8004VectorSearchOptions) (e : Err)
    (hvec : client.vectorSearch (vectorRequestErc8004 query options) = .error e) :
    (RegistryBroker.vectorSearchErc8004 client query options).2 =
      some (vectorFallbackOptions query options) ∧
    (vectorFallbackOptions query options).query = some query ∧
    (vectorFallbackOptions query options).registry =
      some ((options.bind Erc8004VectorSearchOptions.registry).getD
        ERC8004_DEFAULT_REGISTRY) ∧
    (vectorFallbackOptions query options).protocols =
      some ((options.bind Erc8004VectorSearchOptions.protocols).getD ["a2a"]) ∧
    (vectorFallbackOptions query options).limit =
      (vectorRequestErc8004 query options).limit ∧
    (∀ fb, searchErc8004Agents client (vectorFallbackOptions query options) = .ok fb →
      (RegistryBroker.vectorSearchErc8004 client query options).1 =
        .ok { hits := some ((fb.hits.getD []).map (fun hit =>
                { agent := some hit, score := 0,
                  uaid := hit.uaid.orElse (fun _ => hit.id), highlights := [] })),
              total := fb.total.orElse (fun _ => some ((fb.hits.getD []).length : Int)),
              took := some 0 }) ∧
    (∀ e2, searchErc8004Agents client (vectorFallbackOptions query options) = .error e2 →
      (RegistryBroker.vectorSearchErc8004 client query options).1 = .error e2) := by
  refine ⟨?_, rfl, rfl, rfl, rfl, ?_, ?_⟩
  · cases hfb : searchErc8004Agents client (vectorFallbackOptions query options) with
    | error e2 =>
      simp [RegistryBroker.vectorSearchErc8004, RegistryBroker.vectorSearch, hvec, hfb]
    | ok fb =>
      simp [RegistryBroker.vectorSearchErc8004, RegistryBroker.vectorSearch, hvec, hfb]
  · intro fb hfb
    simp [RegistryBroker.vectorSearchErc8004, RegistryBroker.vectorSearch, hvec, hfb]
  · intro e2 hfb
    simp [RegistryBroker.vectorSearchErc8004, RegistryBroker.vectorSearch, hvec, hfb]

/-- C8 witness: with a failing vector backend and one keyword hit, the call
surfaces that hit with score 0 and no error. -/
theorem C8_vector_search_error_swallowed_witness :
    (RegistryBroker.vectorSearchErc8004 C8coreClient "q" none).1 =
      .ok { hits := some [{ agent := some { id := some "a1", uaid := some "u1" },
                            score := 0, uaid := some "u1", highlights := [] }],
            total := some 1, took := some 0 } := by
  have h := (C8_vector_search_error_swallowed C8coreClient "q" none
    (mkError "vector down") rfl).2.2.2.2.2.1
    { hits := some [{ id := some "a1", uaid := some "u1" }] } rfl
  exact h.trans rfl

/-- Lookup after `Map.set`. -/
theorem cacheGet_cacheSet (cache : UaidCache) (k v k2 : String) :
    cacheGet (cacheSet cache k v) k2 =
      if k2 = k then some v else cacheGet cache k2 := by
  by_cases h : k2 = k
  · subst h
    simp [cacheGet, cacheSet]
  · simp [cacheGet, cacheSet, h, Ne.symm h]

/-- The cache after one `resolveChatTargetFromAgent` run: unchanged, or
extended at the trimmed agent id (previously absent) by a non-empty uaid that
is the trimmed first-hit uaid of one of the two searches. -/
theorem resolve_cache_spec (client : ChatAdapterClientModel) (cache : UaidCache)
    (agent : AgentRef) :
    (resolveChatTargetFromAgent client cache agent).2.1 = cache ∨
    ∃ v, v ≠ "" ∧
      (resolveChatTargetFromAgent client cache agent).2.1 =
        cacheSet cache ((agent.agentId.map jsTrim).getD "") v ∧
      cacheGet cache ((agent.agentId.map jsTrim).getD "") = none ∧
      (brokerFirstHitUaid client (some [ERC8004_DEFAULT_ADAPTER]) = some v ∨
       brokerFirstHitUaid client none = some v) := by
  by_cases hA : ((agent.agentId.map jsTrim).getD "") = ""
  · left
    simp only [resolveChatTargetFromAgent, hA]
    simp only [ne_eq, not_true_eq_false, if_false]
    split <;> rfl
  · cases hget : cacheGet cache ((agent.agentId.map jsTrim).getD "") with
    | some cached =>
      left
      simp [resolveChatTargetFromAgent, hA, hget]
    | none =>
      cases hs1 : adapterSearchBroker client (some [ERC8004_DEFAULT_ADAPTER]) with
      | error e =>
        left
        simp [resolveChatTargetFromAgent, hA, hget, hs1]
      | ok r1 =>
        cases ho : firstHitUaidTrim r1 with
        | some s =>
          by_cases hsne : s = ""
          · subst hsne
            cases hs2 : adapterSearchBroker client none with
            | error e =>
              left
              simp [resolveChatTargetFromAgent, hA, hget, hs1, ho, hs2, strTruthy]
            | ok r2 =>
              left
              simp [resolveChatTargetFromAgent, hA, hget, hs1, ho, hs2, strTruthy]
          · right
            refine ⟨s, hsne, ?_, rfl, Or.inl ?_⟩
            · simp [resolveChatTargetFromAgent, hA, hget, hs1, ho, strTruthy, hsne]
            · simp [brokerFirstHitUaid, hs1, ho]
        | none =>
          cases hs2 : adapterSearchBroker client none with
          | error e =>
            left
            simp [resolveChatTargetFromAgent, hA, hget, hs1, ho, hs2, strTruthy]
          | ok r2 =>
            cases hf : firstHitUaidTrim r2 with
            | none =>
              left
              simp [resolveChatTargetFromAgent, hA, hget, hs1, ho, hs2, hf, strTruthy]
            | some w =>
              by_cases hw : w = ""
              · left
                subst hw
                simp [resolveChatTargetFromAgent, hA, hget, hs1, ho, hs2, hf, strTruthy]
              · right
                refine ⟨w, hw, ?_, rfl, Or.inr ?_⟩
                · simp [resolveChatTargetFromAgent, hA, hget, hs1, ho, hs2, hf,
                    strTruthy, hw]
                · simp [brokerFirstHitUaid, hs2, hf]

/-- C9: (1) on a cache hit for the trimmed agent id the resolver returns
exactly the cached uaid, issues no request and leaves the cache unchanged;
(2) existing entries persist through every resolution (no expiry, no
overwrite); (3) a fresh entry appears only for the trimmed agent id, carries
a non-empty uaid, and equals the trimmed first-hit uaid returned by one of
the two searches issued on the miss. -/
theorem C9_uaid_cache_behavior (client : ChatAdapterClientModel)
    (cache : UaidCache) (agent : AgentRef) :
    (∀ u, (agent.agentId.map jsTrim).getD "" ≠ "" →
      cacheGet cache ((agent.agentId.map jsTrim).getD "") = some u →
      resolveChatTargetFromAgent client cache agent =
        (.ok { uaid := some u }, cache, [])) ∧
    (∀ k v, cacheGet cache k = some v →
      cacheGet (resolveChatTargetFromAgent client cache agent).2.1 k = some v) ∧
    (∀ k v, cacheGet (resolveChatTargetFromAgent client cache agent).2.1 k = some v →
      cacheGet cache k = none →
      v ≠ "" ∧ k = (agent.agentId.map jsTrim).getD "" ∧
      (brokerFirstHitUaid client (some [ERC8004_DEFAULT_ADAPTER]) = some v ∨
       brokerFirstHitUaid client none = some v)) := by
  refine ⟨?_, ?_, ?_⟩
  · intro u hne hget
    simp [resolveChatTargetFromAgent, hne, hget]
  · intro k v hkv
    rcases resolve_cache_spec client cache agent with h | ⟨w, _, hset, hnone, _⟩
    · rw [h]
      exact hkv
    · rw [hset, cacheGet_cacheSet]
      by_cases hk : k = (agent.agentId.map jsTrim).getD ""
      · subst hk
        simp [hkv] at hnone
      · simp [hk, hkv]
  · intro k v hkv hnone
    rcases resolve_cache_spec client cache agent with h | ⟨w, hw, hset, _, hprov⟩
    · rw [h] at hkv
      simp [hkv] at hnone
    · rw [hset, cacheGet_cacheSet] at hkv
      by_cases hk : k = (agent.agentId.map jsTrim).getD ""
      · rw [if_pos hk] at hkv
        obtain rfl : w = v := Option.some.inj hkv
        exact ⟨hw, hk, hprov⟩
      · rw [if_neg hk] at hkv
        simp [hkv] at hnone

/-- C9 witness: a cache preloaded with `agent-1 ↦ u-1` resolves `agent-1`
to `u-1` with no request and an unchanged cache. -/
theorem C9_uaid_cache_behavior_witness :
    resolveChatTargetFromAgent C9adapterClient [("agent-1", "u-1")]
        { agentId := some "agent-1" } =
      (.ok { uaid := some "u-1" }, [("agent-1", "u-1")], []) :=
  (C9_uaid_cache_behavior C9adapterClient [("agent-1", "u-1")]
    { agentId := some "agent-1" }).1 "u-1" (by decide) (by decide)

end Agent0
